import Mathlib

/-!
Verification of the roton recording-session manager (src/recorder.rs).

The Rust `Recorder` struct and its methods are shallowly embedded as pure
Lean functions.  External side effects (spawning `wl-screenrec`, `pactl`
load/unload-module calls, `kill`, filesystem renames/copies/removals,
writing the concat manifest, running `ffmpeg`) are modelled by
  - an emitted event trace (`Event`), recording every external call the
    code issues, in order, and
  - per-call environment records (`SegEnv`, `StartEnv`, `FinishEnv`)
    supplying the outcome of each external call.
Machine state threading is explicit: each operation maps a `Recorder`
state and an environment to a `StepOut` (new state, `Result` value,
emitted events), mirroring `&mut self` methods returning
`Result<(), String>`.
-/

/-- Mirrors `RecordingConfig` in src/recorder.rs (lines 5-12). -/
structure RecordingConfig where
  geometry : Option String
  audio_mode : String
  mic_device : Option String
  monitor_device : Option String
  final_path : String
deriving DecidableEq, Repr

/-- Mirrors the `Recorder` struct (lines 14-20).  `Child` process handles
are modelled by their pid (`Nat`); `PathBuf` by `String`. -/
structure Recorder where
  process : Option Nat
  pulse_modules : List String
  config : Option RecordingConfig
  temp_segments : List String
  is_paused : Bool
deriving DecidableEq, Repr

/-- `Recorder::new` (lines 23-31). -/
def Recorder.new : Recorder :=
  { process := none, pulse_modules := [], config := none,
    temp_segments := [], is_paused := false }

/-- One external call issued by the recorder. -/
inductive Event where
  | loadModule (args : List String)
  | unloadModule (id : String)
  | spawnProc (args : List String)
  | killProc (pid : Nat)
  | fsWrite (path content : String)
  | runFfmpeg (list_path final_path : String)
  | fsRename (src dst : String)
  | fsCopy (src dst : String)
  | fsRemove (path : String)
deriving DecidableEq, Repr

/-- Result of one spawned-segment attempt: the fresh temp-file path the
code generates (timestamp-based, hence environment-supplied) and the
outcome of `Command::spawn`. -/
structure SegEnv where
  tempFile : String
  spawnRes : Except String Nat
deriving Repr

/-- Outcomes of the three `pactl load-module` calls issued for `Both`
mode, plus the segment-spawn outcome, during `start_session`. -/
structure StartEnv where
  sinkRes : Option String
  loop1Res : Option String
  loop2Res : Option String
  seg : SegEnv
deriving Repr

/-- Outcome of `fs::rename`: success, failure with
`raw_os_error() == Some(18)` (EXDEV), or any other failure. -/
inductive RenameRes where
  | ok
  | errExdev
  | errOther (msg : String)
deriving DecidableEq, Repr

/-- Outcomes of the external calls `finish_session` may issue. -/
structure FinishEnv where
  tempDir : String
  renameRes : RenameRes
  copyRes : Option String
  removeSrcRes : Option String
  writeRes : Option String
  ffmpegRes : Except String Bool
deriving Repr

/-- Output of one `&mut self` method: new state, returned
`Result<(), String>`, and the external calls issued. -/
structure StepOut where
  state : Recorder
  res : Except String Unit
  events : List Event

/-- `Recorder::load_pulse_module` (lines 48-62): on success the opaque id
is pushed onto `pulse_modules`; on failure nothing is recorded.  The
`pactl load-module` invocation happens in both cases. -/
def load_pulse_module (r : Recorder) (res : Option String) (args : List String) :
    Recorder × Option String × List Event :=
  match res with
  | some id =>
      ({ r with pulse_modules := r.pulse_modules ++ [id] }, some id,
       [Event.loadModule args])
  | none => (r, none, [Event.loadModule args])

/-- `Recorder::unload_pulse_modules` (lines 64-72): best-effort
`pactl unload-module` for every recorded id, then clear the list. -/
def unload_pulse_modules (r : Recorder) : Recorder × List Event :=
  ({ r with pulse_modules := [] }, r.pulse_modules.map Event.unloadModule)

/-- `Recorder::stop_current_process` (lines 126-132): take the child if
present, send SIGINT via `kill`, wait. -/
def stop_current_process (r : Recorder) : Recorder × List Event :=
  match r.process with
  | some pid => ({ r with process := none }, [Event.killProc pid])
  | none => (r, [])

/-- The `wl-screenrec` argument list built in `start_segment`
(lines 82-110). -/
def segArgs (config : RecordingConfig) (tempPath : String) : List String :=
  ["-f", tempPath]
  ++ (match config.geometry with
      | some g => ["-g", g]
      | none => [])
  ++ (if config.audio_mode = "Screen" then
        ["--audio"] ++ (match config.monitor_device with
          | some d => ["--audio-device", d]
          | none => [])
      else if config.audio_mode = "Mic" then
        ["--audio"] ++ (match config.mic_device with
          | some d => ["--audio-device", d]
          | none => [])
      else if config.audio_mode = "Both" then
        ["--audio", "--audio-device", "RotonMixer.monitor"]
      else [])

/-- `Recorder::start_segment` (lines 75-124): requires a saved config;
spawns `wl-screenrec`; on success stores the child and appends the temp
path to `temp_segments`. -/
def start_segment (r : Recorder) (e : SegEnv) : StepOut :=
  match r.config with
  | some config =>
      match e.spawnRes with
      | Except.ok child =>
          ⟨{ r with process := some child,
                    temp_segments := r.temp_segments ++ [e.tempFile] },
           Except.ok (), [Event.spawnProc (segArgs config e.tempFile)]⟩
      | Except.error msg =>
          ⟨r, Except.error ("Failed to start segment: " ++ msg),
           [Event.spawnProc (segArgs config e.tempFile)]⟩
  | none => ⟨r, Except.error ("No configuration found"), []⟩

/-- `Recorder::start_session` (lines 136-164): stop any current process,
unload modules, clear segments and pause flag; for `Both` with both
devices issue the three `pactl load-module` calls (results ignored);
save the config; start the first segment. -/
def start_session (r0 : Recorder) (final_path : String) (geometry : Option String)
    (audio_mode : String) (mic monitor : Option String) (env : StartEnv) : StepOut :=
  let s1 := stop_current_process r0
  let s2 := unload_pulse_modules s1.1
  let r := { s2.1 with temp_segments := [], is_paused := false }
  let mix : Recorder × List Event :=
    if audio_mode = "Both" then
      match mic, monitor with
      | some m, some mon =>
          let l1 := load_pulse_module r env.sinkRes
            ["module-null-sink", "sink_name=RotonMixer",
             "sink_properties=device.description=RotonMixer"]
          let l2 := load_pulse_module l1.1 env.loop1Res
            ["module-loopback", "sink=RotonMixer", "source=" ++ m, "latency_msec=1"]
          let l3 := load_pulse_module l2.1 env.loop2Res
            ["module-loopback", "sink=RotonMixer", "source=" ++ mon, "latency_msec=1"]
          (l3.1, l1.2.2 ++ l2.2.2 ++ l3.2.2)
      | _, _ => (r, [])
    else (r, [])
  let r2 := { mix.1 with
    config := some ⟨geometry, audio_mode, mic, monitor, final_path⟩ }
  let sg := start_segment r2 env.seg
  ⟨sg.state, sg.res, s1.2 ++ s2.2 ++ mix.2 ++ sg.events⟩

/-- `Recorder::pause_session` (lines 166-173): if not paused, stop the
current process and set the pause flag; always returns `Ok`. -/
def pause_session (r : Recorder) : StepOut :=
  if r.is_paused then ⟨r, Except.ok (), []⟩
  else
    let s := stop_current_process r
    ⟨{ s.1 with is_paused := true }, Except.ok (), s.2⟩

/-- `Recorder::resume_session` (lines 175-182): if paused, start a new
segment (`?` propagates its error, leaving the pause flag set); on
success clear the pause flag. -/
def resume_session (r : Recorder) (e : SegEnv) : StepOut :=
  if r.is_paused then
    let sg := start_segment r e
    match sg.res with
    | Except.ok _ => ⟨{ sg.state with is_paused := false }, Except.ok (), sg.events⟩
    | Except.error msg => ⟨sg.state, Except.error msg, sg.events⟩
  else ⟨r, Except.ok (), []⟩

/-- The apostrophe character used by the ffmpeg concat manifest. -/
def squote : String := String.singleton (Char.ofNat 39)

/-- One manifest line, `file '<path>'` plus newline (line 216). -/
def manifestLine (p : String) : String :=
  "file " ++ squote ++ p ++ squote ++ "\n"

/-- Final cleanup of `finish_session` (lines 242-250): best-effort
removal of every temp segment, then drop the config and clear the list. -/
def finishCleanup (r : Recorder) (acc : List Event) : StepOut :=
  ⟨{ r with config := none, temp_segments := [] }, Except.ok (),
   acc ++ r.temp_segments.map Event.fsRemove⟩

/-- `Recorder::finish_session` (lines 184-251): stop the process, unload
modules; error if no segments; error if no config; one segment → rename
with EXDEV copy-then-delete fallback; several segments → write the
concat manifest, run ffmpeg, remove the manifest on success; on success
remove all segments and reset config and segment list. -/
def finish_session (r0 : Recorder) (env : FinishEnv) : StepOut :=
  let s1 := stop_current_process r0
  let s2 := unload_pulse_modules s1.1
  let r := s2.1
  let pre := s1.2 ++ s2.2
  match r.temp_segments with
  | [] => ⟨r, Except.error ("No recordings made"), pre⟩
  | seg0 :: rest =>
    match r.config with
    | none => ⟨r, Except.error ("Config lost"), pre⟩
    | some cfg =>
      if rest.isEmpty then
        let evR := pre ++ [Event.fsRename seg0 cfg.final_path]
        match env.renameRes with
        | RenameRes.ok => finishCleanup r evR
        | RenameRes.errExdev =>
            let evC := evR ++ [Event.fsCopy seg0 cfg.final_path]
            match env.copyRes with
            | some msg => ⟨r, Except.error msg, evC⟩
            | none =>
              let evD := evC ++ [Event.fsRemove seg0]
              match env.removeSrcRes with
              | some msg => ⟨r, Except.error msg, evD⟩
              | none => finishCleanup r evD
        | RenameRes.errOther msg => ⟨r, Except.error msg, evR⟩
      else
        let list_path := env.tempDir ++ "/roton_concat_list.txt"
        let list_content := String.join (r.temp_segments.map manifestLine)
        let evW := pre ++ [Event.fsWrite list_path list_content]
        match env.writeRes with
        | some msg => ⟨r, Except.error msg, evW⟩
        | none =>
          let evF := evW ++ [Event.runFfmpeg list_path cfg.final_path]
          match env.ffmpegRes with
          | Except.error msg => ⟨r, Except.error msg, evF⟩
          | Except.ok ok =>
            if ok then finishCleanup r (evF ++ [Event.fsRemove list_path])
            else ⟨r, Except.error ("FFmpeg concat failed"), evF⟩

/-- One public operation together with its environment. -/
inductive Op where
  | start (final_path : String) (geometry : Option String) (audio_mode : String)
      (mic monitor : Option String) (env : StartEnv)
  | pause
  | resume (e : SegEnv)
  | finish (env : FinishEnv)

/-- Dispatch one public operation. -/
def step (r : Recorder) : Op → StepOut
  | Op.start fp geo mode mic mon env => start_session r fp geo mode mic mon env
  | Op.pause => pause_session r
  | Op.resume e => resume_session r e
  | Op.finish env => finish_session r env

/-- State reached from `Recorder::new` after a sequence of operations. -/
def run (ops : List Op) : Recorder :=
  ops.foldl (fun r op => (step r op).state) Recorder.new

/-- A `pause` immediately followed by a `resume` with environment `e`. -/
def pauseResume (r : Recorder) (e : SegEnv) : Recorder :=
  (resume_session (pause_session r).state e).state

/-- State after `start` then `N` pause/resume pairs. -/
def runPairs (r : Recorder) (es : List SegEnv) : Recorder :=
  es.foldl pauseResume r

/-! ### Helper lemmas characterizing the embedded operations -/

lemma stop_state (r : Recorder) :
    (stop_current_process r).1 = { r with process := none } := by
  cases r with
  | mk p pm c ts ip => cases p <;> rfl

lemma stop_of_none (r : Recorder) (h : r.process = none) :
    stop_current_process r = (r, []) := by
  cases r with
  | mk p pm c ts ip =>
    simp only [stop_current_process]
    simp at h
    subst h
    rfl

lemma stop_of_some (r : Recorder) (pid : Nat) (h : r.process = some pid) :
    stop_current_process r = ({ r with process := none }, [Event.killProc pid]) := by
  cases r with
  | mk p pm c ts ip =>
    simp only [stop_current_process]
    simp at h
    subst h
    rfl

lemma load_state (r : Recorder) (res : Option String) (args : List String) :
    (load_pulse_module r res args).1 =
      { r with pulse_modules := r.pulse_modules ++ res.toList } := by
  cases r with
  | mk p pm c ts ip => cases res <;> simp [load_pulse_module]

lemma load_events (r : Recorder) (res : Option String) (args : List String) :
    (load_pulse_module r res args).2.2 = [Event.loadModule args] := by
  cases res <;> rfl

/-- Module ids recorded by the mixer-setup block of `start_session`
(lines 144-151): the ids of the successful loads, in call order. -/
def mixModules (audio_mode : String) (mic monitor : Option String) (env : StartEnv) :
    List String :=
  if audio_mode = "Both" then
    match mic, monitor with
    | some _, some _ => env.sinkRes.toList ++ env.loop1Res.toList ++ env.loop2Res.toList
    | _, _ => []
  else []

/-- The `pactl load-module` calls issued by the mixer-setup block of
`start_session`. -/
def mixEvents (audio_mode : String) (mic monitor : Option String) : List Event :=
  if audio_mode = "Both" then
    match mic, monitor with
    | some m, some mon =>
        [Event.loadModule ["module-null-sink", "sink_name=RotonMixer",
           "sink_properties=device.description=RotonMixer"],
         Event.loadModule ["module-loopback", "sink=RotonMixer",
           "source=" ++ m, "latency_msec=1"],
         Event.loadModule ["module-loopback", "sink=RotonMixer",
           "source=" ++ mon, "latency_msec=1"]]
    | _, _ => []
  else []

lemma start_session_eq (r0 : Recorder) (fp : String) (geo : Option String)
    (mode : String) (mic mon : Option String) (env : StartEnv) :
    start_session r0 fp geo mode mic mon env =
      ⟨(start_segment
          { process := none, pulse_modules := mixModules mode mic mon env,
            config := some ⟨geo, mode, mic, mon, fp⟩,
            temp_segments := [], is_paused := false } env.seg).state,
       (start_segment
          { process := none, pulse_modules := mixModules mode mic mon env,
            config := some ⟨geo, mode, mic, mon, fp⟩,
            temp_segments := [], is_paused := false } env.seg).res,
       (stop_current_process r0).2
         ++ (unload_pulse_modules (stop_current_process r0).1).2
         ++ mixEvents mode mic mon
         ++ (start_segment
              { process := none, pulse_modules := mixModules mode mic mon env,
                config := some ⟨geo, mode, mic, mon, fp⟩,
                temp_segments := [], is_paused := false } env.seg).events⟩ := by
  unfold start_session mixModules mixEvents
  by_cases hm : mode = "Both" <;> simp only [hm, reduceIte]
  · cases mic <;> cases mon <;>
      simp [load_state, load_events, stop_state, unload_pulse_modules]
  · simp [stop_state, unload_pulse_modules]

lemma start_session_ok (r0 : Recorder) (fp : String) (geo : Option String)
    (mode : String) (mic mon : Option String) (env : StartEnv) (pid : Nat)
    (h : env.seg.spawnRes = Except.ok pid) :
    start_session r0 fp geo mode mic mon env =
      ⟨{ process := some pid, pulse_modules := mixModules mode mic mon env,
         config := some ⟨geo, mode, mic, mon, fp⟩,
         temp_segments := [env.seg.tempFile], is_paused := false },
       Except.ok (),
       (stop_current_process r0).2
         ++ (unload_pulse_modules (stop_current_process r0).1).2
         ++ mixEvents mode mic mon
         ++ [Event.spawnProc (segArgs ⟨geo, mode, mic, mon, fp⟩ env.seg.tempFile)]⟩ := by
  rw [start_session_eq]
  simp [start_segment, h]

lemma start_session_spawn_err (r0 : Recorder) (fp : String) (geo : Option String)
    (mode : String) (mic mon : Option String) (env : StartEnv) (msg : String)
    (h : env.seg.spawnRes = Except.error msg) :
    start_session r0 fp geo mode mic mon env =
      ⟨{ process := none, pulse_modules := mixModules mode mic mon env,
         config := some ⟨geo, mode, mic, mon, fp⟩,
         temp_segments := [], is_paused := false },
       Except.error ("Failed to start segment: " ++ msg),
       (stop_current_process r0).2
         ++ (unload_pulse_modules (stop_current_process r0).1).2
         ++ mixEvents mode mic mon
         ++ [Event.spawnProc (segArgs ⟨geo, mode, mic, mon, fp⟩ env.seg.tempFile)]⟩ := by
  rw [start_session_eq]
  simp [start_segment, h]

lemma pauseResume_ok (r : Recorder) (cfg : RecordingConfig) (e : SegEnv) (pid : Nat)
    (hc : r.config = some cfg) (hp : r.is_paused = false)
    (h : e.spawnRes = Except.ok pid) :
    pauseResume r e =
      { r with process := some pid,
               temp_segments := r.temp_segments ++ [e.tempFile],
               is_paused := false } := by
  cases r with
  | mk p pm c ts ip =>
    simp only [Recorder.config] at hc
    simp only [Recorder.is_paused] at hp
    subst hc hp
    cases p <;>
      simp [pauseResume, pause_session, resume_session, stop_current_process,
        start_segment, h]

lemma runPairs_ok (es : List SegEnv) : ∀ (r : Recorder) (cfg : RecordingConfig),
    r.config = some cfg → r.is_paused = false →
    (∀ e ∈ es, ∃ pid, e.spawnRes = Except.ok pid) →
    (runPairs r es).temp_segments = r.temp_segments ++ es.map SegEnv.tempFile ∧
    (runPairs r es).config = some cfg ∧ (runPairs r es).is_paused = false := by
  induction es with
  | nil =>
    intro r cfg hc hp _
    simpa [runPairs] using ⟨hc, hp⟩
  | cons e es ih =>
    intro r cfg hc hp hall
    obtain ⟨pid, hpid⟩ := hall e (by simp)
    have hstep := pauseResume_ok r cfg e pid hc hp hpid
    have hrun : runPairs r (e :: es) = runPairs (pauseResume r e) es := rfl
    have h2 := ih (pauseResume r e) cfg (by rw [hstep]; exact hc) (by rw [hstep])
      (fun x hx => hall x (by simp [hx]))
    rw [hstep] at h2
    rw [hrun, hstep]
    refine ⟨?_, h2.2.1, h2.2.2⟩
    rw [h2.1]
    simp

/-- Events emitted by the stop-process/unload-modules prologue shared by
`finish_session` (lines 185-186). -/
def preEvents (r : Recorder) : List Event :=
  (stop_current_process r).2 ++ r.pulse_modules.map Event.unloadModule

lemma finish_empty (r : Recorder) (env : FinishEnv)
    (hs : r.temp_segments = []) :
    finish_session r env =
      ⟨{ r with process := none, pulse_modules := [] },
       Except.error ("No recordings made"), preEvents r⟩ := by
  cases r with
  | mk p pm c ts ip =>
    simp only [Recorder.temp_segments] at hs
    subst hs
    cases p <;>
      simp [finish_session, stop_current_process, unload_pulse_modules, preEvents]

lemma finish_noconfig (r : Recorder) (env : FinishEnv) (s : String) (rest : List String)
    (hs : r.temp_segments = s :: rest) (hc : r.config = none) :
    finish_session r env =
      ⟨{ r with process := none, pulse_modules := [] },
       Except.error ("Config lost"), preEvents r⟩ := by
  cases r with
  | mk p pm c ts ip =>
    simp only [Recorder.temp_segments] at hs
    simp only [Recorder.config] at hc
    subst hs hc
    cases p <;>
      simp [finish_session, stop_current_process, unload_pulse_modules, preEvents]

lemma finish_single_rename_ok (r : Recorder) (env : FinishEnv) (s : String)
    (cfg : RecordingConfig) (hs : r.temp_segments = [s]) (hc : r.config = some cfg)
    (hr : env.renameRes = RenameRes.ok) :
    finish_session r env =
      ⟨{ r with process := none, pulse_modules := [],
                config := none, temp_segments := [] },
       Except.ok (),
       preEvents r ++ [Event.fsRename s cfg.final_path, Event.fsRemove s]⟩ := by
  cases r with
  | mk p pm c ts ip =>
    simp only [Recorder.temp_segments] at hs
    simp only [Recorder.config] at hc
    subst hs hc
    cases p <;>
      simp [finish_session, finishCleanup, stop_current_process,
        unload_pulse_modules, preEvents, hr]

lemma finish_single_exdev_ok (r : Recorder) (env : FinishEnv) (s : String)
    (cfg : RecordingConfig) (hs : r.temp_segments = [s]) (hc : r.config = some cfg)
    (hr : env.renameRes = RenameRes.errExdev) (hcp : env.copyRes = none)
    (hrm : env.removeSrcRes = none) :
    finish_session r env =
      ⟨{ r with process := none, pulse_modules := [],
                config := none, temp_segments := [] },
       Except.ok (),
       preEvents r ++ [Event.fsRename s cfg.final_path, Event.fsCopy s cfg.final_path,
         Event.fsRemove s, Event.fsRemove s]⟩ := by
  cases r with
  | mk p pm c ts ip =>
    simp only [Recorder.temp_segments] at hs
    simp only [Recorder.config] at hc
    subst hs hc
    cases p <;>
      simp [finish_session, finishCleanup, stop_current_process,
        unload_pulse_modules, preEvents, hr, hcp, hrm]

lemma finish_single_exdev_copy_err (r : Recorder) (env : FinishEnv) (s msg : String)
    (cfg : RecordingConfig) (hs : r.temp_segments = [s]) (hc : r.config = some cfg)
    (hr : env.renameRes = RenameRes.errExdev) (hcp : env.copyRes = some msg) :
    finish_session r env =
      ⟨{ r with process := none, pulse_modules := [] },
       Except.error msg,
       preEvents r ++ [Event.fsRename s cfg.final_path,
         Event.fsCopy s cfg.final_path]⟩ := by
  cases r with
  | mk p pm c ts ip =>
    simp only [Recorder.temp_segments] at hs
    simp only [Recorder.config] at hc
    subst hs hc
    cases p <;>
      simp [finish_session, stop_current_process,
        unload_pulse_modules, preEvents, hr, hcp]

lemma finish_single_exdev_remove_err (r : Recorder) (env : FinishEnv) (s msg : String)
    (cfg : RecordingConfig) (hs : r.temp_segments = [s]) (hc : r.config = some cfg)
    (hr : env.renameRes = RenameRes.errExdev) (hcp : env.copyRes = none)
    (hrm : env.removeSrcRes = some msg) :
    finish_session r env =
      ⟨{ r with process := none, pulse_modules := [] },
       Except.error msg,
       preEvents r ++ [Event.fsRename s cfg.final_path,
         Event.fsCopy s cfg.final_path, Event.fsRemove s]⟩ := by
  cases r with
  | mk p pm c ts ip =>
    simp only [Recorder.temp_segments] at hs
    simp only [Recorder.config] at hc
    subst hs hc
    cases p <;>
      simp [finish_session, stop_current_process,
        unload_pulse_modules, preEvents, hr, hcp, hrm]

lemma finish_single_rename_hard_err (r : Recorder) (env : FinishEnv) (s msg : String)
    (cfg : RecordingConfig) (hs : r.temp_segments = [s]) (hc : r.config = some cfg)
    (hr : env.renameRes = RenameRes.errOther msg) :
    finish_session r env =
      ⟨{ r with process := none, pulse_modules := [] },
       Except.error msg,
       preEvents r ++ [Event.fsRename s cfg.final_path]⟩ := by
  cases r with
  | mk p pm c ts ip =>
    simp only [Recorder.temp_segments] at hs
    simp only [Recorder.config] at hc
    subst hs hc
    cases p <;>
      simp [finish_session, stop_current_process,
        unload_pulse_modules, preEvents, hr]

/-- The manifest path used by the multi-segment branch (line 213). -/
def listPath (env : FinishEnv) : String := env.tempDir ++ "/roton_concat_list.txt"

/-- The manifest content for a segment list (lines 214-217). -/
def manifest (segs : List String) : String := String.join (segs.map manifestLine)

lemma finish_multi_write_err (r : Recorder) (env : FinishEnv) (s0 s1 msg : String)
    (rest : List String) (cfg : RecordingConfig)
    (hs : r.temp_segments = s0 :: s1 :: rest) (hc : r.config = some cfg)
    (hw : env.writeRes = some msg) :
    finish_session r env =
      ⟨{ r with process := none, pulse_modules := [] },
       Except.error msg,
       preEvents r ++ [Event.fsWrite (listPath env) (manifest (s0 :: s1 :: rest))]⟩ := by
  cases r with
  | mk p pm c ts ip =>
    simp only [Recorder.temp_segments] at hs
    simp only [Recorder.config] at hc
    subst hs hc
    cases p <;>
      simp [finish_session, stop_current_process, unload_pulse_modules,
        preEvents, listPath, manifest, hw]

lemma finish_multi_ffmpeg_spawn_err (r : Recorder) (env : FinishEnv) (s0 s1 msg : String)
    (rest : List String) (cfg : RecordingConfig)
    (hs : r.temp_segments = s0 :: s1 :: rest) (hc : r.config = some cfg)
    (hw : env.writeRes = none) (hf : env.ffmpegRes = Except.error msg) :
    finish_session r env =
      ⟨{ r with process := none, pulse_modules := [] },
       Except.error msg,
       preEvents r ++ [Event.fsWrite (listPath env) (manifest (s0 :: s1 :: rest)),
         Event.runFfmpeg (listPath env) cfg.final_path]⟩ := by
  cases r with
  | mk p pm c ts ip =>
    simp only [Recorder.temp_segments] at hs
    simp only [Recorder.config] at hc
    subst hs hc
    cases p <;>
      simp [finish_session, stop_current_process, unload_pulse_modules,
        preEvents, listPath, manifest, hw, hf]

lemma finish_multi_ffmpeg_fail (r : Recorder) (env : FinishEnv) (s0 s1 : String)
    (rest : List String) (cfg : RecordingConfig)
    (hs : r.temp_segments = s0 :: s1 :: rest) (hc : r.config = some cfg)
    (hw : env.writeRes = none) (hf : env.ffmpegRes = Except.ok false) :
    finish_session r env =
      ⟨{ r with process := none, pulse_modules := [] },
       Except.error ("FFmpeg concat failed"),
       preEvents r ++ [Event.fsWrite (listPath env) (manifest (s0 :: s1 :: rest)),
         Event.runFfmpeg (listPath env) cfg.final_path]⟩ := by
  cases r with
  | mk p pm c ts ip =>
    simp only [Recorder.temp_segments] at hs
    simp only [Recorder.config] at hc
    subst hs hc
    cases p <;>
      simp [finish_session, stop_current_process, unload_pulse_modules,
        preEvents, listPath, manifest, hw, hf]

lemma finish_multi_ffmpeg_ok (r : Recorder) (env : FinishEnv) (s0 s1 : String)
    (rest : List String) (cfg : RecordingConfig)
    (hs : r.temp_segments = s0 :: s1 :: rest) (hc : r.config = some cfg)
    (hw : env.writeRes = none) (hf : env.ffmpegRes = Except.ok true) :
    finish_session r env =
      ⟨{ r with process := none, pulse_modules := [],
                config := none, temp_segments := [] },
       Except.ok (),
       preEvents r ++ [Event.fsWrite (listPath env) (manifest (s0 :: s1 :: rest)),
         Event.runFfmpeg (listPath env) cfg.final_path,
         Event.fsRemove (listPath env)]
         ++ (s0 :: s1 :: rest).map Event.fsRemove⟩ := by
  cases r with
  | mk p pm c ts ip =>
    simp only [Recorder.temp_segments] at hs
    simp only [Recorder.config] at hc
    subst hs hc
    cases p <;>
      simp [finish_session, finishCleanup, stop_current_process,
        unload_pulse_modules, preEvents, listPath, manifest, hw, hf]

/-! ### Claim theorems -/

/-- C1: For every session consisting of `start` followed by N ≥ 0
alternating pause/resume pairs (every segment spawn succeeding) and then
`finish`, the segment store holds exactly N+1 segments at finish time,
in creation order, and when N+1 ≥ 2 the manifest passed to ffmpeg lists
the segment paths in exactly their creation order. -/
theorem c1_segment_count_and_merge_order
    (r0 : Recorder) (fp : String) (geo : Option String) (mode : String)
    (mic mon : Option String) (env : StartEnv) (pid : Nat) (es : List SegEnv)
    (fenv : FinishEnv)
    (h0 : env.seg.spawnRes = Except.ok pid)
    (hall : ∀ e ∈ es, ∃ q, e.spawnRes = Except.ok q)
    (hw : fenv.writeRes = none) :
    (runPairs (start_session r0 fp geo mode mic mon env).state es).temp_segments
        = env.seg.tempFile :: es.map SegEnv.tempFile ∧
    (runPairs (start_session r0 fp geo mode mic mon env).state es).temp_segments.length
        = es.length + 1 ∧
    (es ≠ [] →
      Event.fsWrite (listPath fenv)
          (manifest (env.seg.tempFile :: es.map SegEnv.tempFile))
        ∈ (finish_session
            (runPairs (start_session r0 fp geo mode mic mon env).state es) fenv).events ∧
      Event.runFfmpeg (listPath fenv) fp
        ∈ (finish_session
            (runPairs (start_session r0 fp geo mode mic mon env).state es) fenv).events) := by
  have hstate : (start_session r0 fp geo mode mic mon env).state =
      { process := some pid, pulse_modules := mixModules mode mic mon env,
        config := some ⟨geo, mode, mic, mon, fp⟩,
        temp_segments := [env.seg.tempFile], is_paused := false } := by
    rw [start_session_ok r0 fp geo mode mic mon env pid h0]
  obtain ⟨hseg, hcfg, hpz⟩ :=
    runPairs_ok es (start_session r0 fp geo mode mic mon env).state
      ⟨geo, mode, mic, mon, fp⟩ (by rw [hstate]) (by rw [hstate]) hall
  rw [hstate] at hseg
  simp only [Recorder.temp_segments] at hseg
  rw [hstate] at hcfg hpz
  refine ⟨by rw [hstate, hseg]; rfl, by rw [hstate, hseg]; simp, ?_⟩
  intro hne
  cases es with
  | nil => exact absurd rfl hne
  | cons e1 tl =>
    rw [hstate]
    rcases hf : fenv.ffmpegRes with msg | b
    · rw [finish_multi_ffmpeg_spawn_err _ fenv env.seg.tempFile e1.tempFile msg
        (tl.map SegEnv.tempFile) ⟨geo, mode, mic, mon, fp⟩ (by rw [hseg]; rfl) hcfg hw hf]
      constructor <;> simp
    · cases b
      · rw [finish_multi_ffmpeg_fail _ fenv env.seg.tempFile e1.tempFile
          (tl.map SegEnv.tempFile) ⟨geo, mode, mic, mon, fp⟩ (by rw [hseg]; rfl) hcfg hw hf]
        constructor <;> simp
      · rw [finish_multi_ffmpeg_ok _ fenv env.seg.tempFile e1.tempFile
          (tl.map SegEnv.tempFile) ⟨geo, mode, mic, mon, fp⟩ (by rw [hseg]; rfl) hcfg hw hf]
        constructor <;> simp

/-- Witness for C1 at a concrete session: start (spawn pid 3), one
pause/resume pair (spawn pid 4), finish with a successful merge. -/
theorem c1_witness :
    (StartEnv.mk none none none (SegEnv.mk "/tmp/seg0.mp4" (Except.ok 3))).seg.spawnRes
        = Except.ok 3 ∧
    (∀ e ∈ [SegEnv.mk "/tmp/seg1.mp4" (Except.ok 4)], ∃ q, e.spawnRes = Except.ok q) ∧
    (FinishEnv.mk "/tmp" RenameRes.ok none none none (Except.ok true)).writeRes = none ∧
    ((runPairs (start_session Recorder.new "/home/u/out.mp4" none "Mute" none none
          (StartEnv.mk none none none (SegEnv.mk "/tmp/seg0.mp4" (Except.ok 3)))).state
        [SegEnv.mk "/tmp/seg1.mp4" (Except.ok 4)]).temp_segments
      = (StartEnv.mk none none none (SegEnv.mk "/tmp/seg0.mp4" (Except.ok 3))).seg.tempFile
        :: [SegEnv.mk "/tmp/seg1.mp4" (Except.ok 4)].map SegEnv.tempFile ∧
    (runPairs (start_session Recorder.new "/home/u/out.mp4" none "Mute" none none
          (StartEnv.mk none none none (SegEnv.mk "/tmp/seg0.mp4" (Except.ok 3)))).state
        [SegEnv.mk "/tmp/seg1.mp4" (Except.ok 4)]).temp_segments.length
      = [SegEnv.mk "/tmp/seg1.mp4" (Except.ok 4)].length + 1 ∧
    ([SegEnv.mk "/tmp/seg1.mp4" (Except.ok 4)] ≠ ([] : List SegEnv) →
      Event.fsWrite (listPath (FinishEnv.mk "/tmp" RenameRes.ok none none none (Except.ok true)))
          (manifest ((StartEnv.mk none none none (SegEnv.mk "/tmp/seg0.mp4" (Except.ok 3))).seg.tempFile
            :: [SegEnv.mk "/tmp/seg1.mp4" (Except.ok 4)].map SegEnv.tempFile))
        ∈ (finish_session
            (runPairs (start_session Recorder.new "/home/u/out.mp4" none "Mute" none none
              (StartEnv.mk none none none (SegEnv.mk "/tmp/seg0.mp4" (Except.ok 3)))).state
              [SegEnv.mk "/tmp/seg1.mp4" (Except.ok 4)])
            (FinishEnv.mk "/tmp" RenameRes.ok none none none (Except.ok true))).events ∧
      Event.runFfmpeg (listPath (FinishEnv.mk "/tmp" RenameRes.ok none none none (Except.ok true)))
          "/home/u/out.mp4"
        ∈ (finish_session
            (runPairs (start_session Recorder.new "/home/u/out.mp4" none "Mute" none none
              (StartEnv.mk none none none (SegEnv.mk "/tmp/seg0.mp4" (Except.ok 3)))).state
              [SegEnv.mk "/tmp/seg1.mp4" (Except.ok 4)])
            (FinishEnv.mk "/tmp" RenameRes.ok none none none (Except.ok true))).events)) :=
  ⟨rfl,
   fun e he => by
     rw [List.mem_singleton] at he
     subst he
     exact ⟨4, rfl⟩,
   rfl,
   c1_segment_count_and_merge_order Recorder.new "/home/u/out.mp4" none "Mute" none none
     (StartEnv.mk none none none (SegEnv.mk "/tmp/seg0.mp4" (Except.ok 3))) 3
     [SegEnv.mk "/tmp/seg1.mp4" (Except.ok 4)]
     (FinishEnv.mk "/tmp" RenameRes.ok none none none (Except.ok true))
     rfl
     (fun e he => by
       rw [List.mem_singleton] at he
       subst he
       exact ⟨4, rfl⟩)
     rfl⟩

/-- Is this event a `pactl load-module module-loopback ...` invocation? -/
def isLoopbackLoad : Event → Bool
  | Event.loadModule ("module-loopback" :: _) => true
  | _ => false

/-- Is this event any `pactl load-module` invocation? -/
def isLoadModule : Event → Bool
  | Event.loadModule _ => true
  | _ => false

/-- Number of loopback-module creations in a trace. -/
def loopbackLoads (evs : List Event) : Nat := (evs.filter isLoopbackLoad).length

lemma isLoopbackLoad_unload (a : String) :
    isLoopbackLoad (Event.unloadModule a) = false := rfl

lemma isLoopbackLoad_kill (p : Nat) : isLoopbackLoad (Event.killProc p) = false := rfl

lemma isLoopbackLoad_spawn (a : List String) :
    isLoopbackLoad (Event.spawnProc a) = false := rfl

lemma isLoopbackLoad_nullsink (rest : List String) :
    isLoopbackLoad (Event.loadModule ("module-null-sink" :: rest)) = false := rfl

lemma isLoopbackLoad_loopback (rest : List String) :
    isLoopbackLoad (Event.loadModule ("module-loopback" :: rest)) = true := rfl

lemma isLoadModule_unload (a : String) : isLoadModule (Event.unloadModule a) = false := rfl

lemma isLoadModule_kill (p : Nat) : isLoadModule (Event.killProc p) = false := rfl

lemma isLoadModule_spawn (a : List String) : isLoadModule (Event.spawnProc a) = false := rfl

lemma filter_loopback_unloads (ids : List String) :
    (ids.map Event.unloadModule).filter isLoopbackLoad = [] := by
  induction ids with
  | nil => rfl
  | cons a l ih => simp [List.filter_cons, isLoopbackLoad_unload, ih]

lemma filter_loopback_stop (r : Recorder) :
    (stop_current_process r).2.filter isLoopbackLoad = [] := by
  cases r with
  | mk p pm c ts ip =>
    cases p <;> simp [stop_current_process, List.filter_cons, isLoopbackLoad_kill]

lemma filter_load_unloads (ids : List String) :
    (ids.map Event.unloadModule).filter isLoadModule = [] := by
  induction ids with
  | nil => rfl
  | cons a l ih => simp [List.filter_cons, isLoadModule_unload, ih]

lemma filter_load_stop (r : Recorder) :
    (stop_current_process r).2.filter isLoadModule = [] := by
  cases r with
  | mk p pm c ts ip =>
    cases p <;> simp [stop_current_process, List.filter_cons, isLoadModule_kill]

/-- C2 counterexample: starting in mode `Both` with both devices and the
null-sink creation failing, the code still issues both loopback creations
and `start` returns `Ok` with a capture process spawned — refuting the
claim that zero loopback creations occur, a routing error is returned,
and the state stays `Idle`. -/
theorem c2_counterexample :
    loopbackLoads (start_session Recorder.new "/home/u/out.mp4" none "Both"
        (some "src.mic") (some "src.monitor")
        (StartEnv.mk none (some "22") (some "23")
          (SegEnv.mk "/tmp/seg0.mp4" (Except.ok 5)))).events = 2 ∧
    (start_session Recorder.new "/home/u/out.mp4" none "Both"
        (some "src.mic") (some "src.monitor")
        (StartEnv.mk none (some "22") (some "23")
          (SegEnv.mk "/tmp/seg0.mp4" (Except.ok 5)))).res = Except.ok () ∧
    (start_session Recorder.new "/home/u/out.mp4" none "Both"
        (some "src.mic") (some "src.monitor")
        (StartEnv.mk none (some "22") (some "23")
          (SegEnv.mk "/tmp/seg0.mp4" (Except.ok 5)))).state.process = some 5 :=
  ⟨rfl, rfl, rfl⟩

/-- C2 (amended): in mode `Both` with both devices, a null-sink creation
failure is ignored: both loopback creations are still issued, no sink id
is recorded, and when the capture spawn succeeds `start` returns `Ok`
with the process running. -/
theorem c2_sink_failure_ignored (r0 : Recorder) (fp : String) (geo : Option String)
    (m mon : String) (env : StartEnv) (pid : Nat)
    (hsink : env.sinkRes = none) (hspawn : env.seg.spawnRes = Except.ok pid) :
    loopbackLoads (start_session r0 fp geo "Both" (some m) (some mon) env).events = 2 ∧
    (start_session r0 fp geo "Both" (some m) (some mon) env).res = Except.ok () ∧
    (start_session r0 fp geo "Both" (some m) (some mon) env).state.process = some pid ∧
    (start_session r0 fp geo "Both" (some m) (some mon) env).state.pulse_modules
      = env.loop1Res.toList ++ env.loop2Res.toList := by
  rw [start_session_ok r0 fp geo "Both" (some m) (some mon) env pid hspawn]
  refine ⟨?_, rfl, rfl, ?_⟩
  · simp only [loopbackLoads, mixEvents, reduceIte, List.filter_append,
      filter_loopback_stop, unload_pulse_modules, filter_loopback_unloads,
      List.filter_cons, isLoopbackLoad_nullsink, isLoopbackLoad_loopback,
      isLoopbackLoad_spawn]
    rfl
  · simp [mixModules, hsink]

/-- Witness for C2 (amended) at a concrete input. -/
theorem c2_witness :
    (StartEnv.mk none (some "22") (some "23")
        (SegEnv.mk "/tmp/a.mp4" (Except.ok 5))).sinkRes = none ∧
    (StartEnv.mk none (some "22") (some "23")
        (SegEnv.mk "/tmp/a.mp4" (Except.ok 5))).seg.spawnRes = Except.ok 5 ∧
    (loopbackLoads (start_session Recorder.new "/home/u/out.mp4" none "Both"
        (some "src.mic") (some "src.monitor")
        (StartEnv.mk none (some "22") (some "23")
          (SegEnv.mk "/tmp/a.mp4" (Except.ok 5)))).events = 2 ∧
    (start_session Recorder.new "/home/u/out.mp4" none "Both"
        (some "src.mic") (some "src.monitor")
        (StartEnv.mk none (some "22") (some "23")
          (SegEnv.mk "/tmp/a.mp4" (Except.ok 5)))).res = Except.ok () ∧
    (start_session Recorder.new "/home/u/out.mp4" none "Both"
        (some "src.mic") (some "src.monitor")
        (StartEnv.mk none (some "22") (some "23")
          (SegEnv.mk "/tmp/a.mp4" (Except.ok 5)))).state.process = some 5 ∧
    (start_session Recorder.new "/home/u/out.mp4" none "Both"
        (some "src.mic") (some "src.monitor")
        (StartEnv.mk none (some "22") (some "23")
          (SegEnv.mk "/tmp/a.mp4" (Except.ok 5)))).state.pulse_modules
      = (StartEnv.mk none (some "22") (some "23")
          (SegEnv.mk "/tmp/a.mp4" (Except.ok 5))).loop1Res.toList
        ++ (StartEnv.mk none (some "22") (some "23")
          (SegEnv.mk "/tmp/a.mp4" (Except.ok 5))).loop2Res.toList) :=
  ⟨rfl, rfl,
   c2_sink_failure_ignored Recorder.new "/home/u/out.mp4" none "src.mic" "src.monitor"
     (StartEnv.mk none (some "22") (some "23") (SegEnv.mk "/tmp/a.mp4" (Except.ok 5)))
     5 rfl rfl⟩

/-- C3 counterexample: `start` in mode `Both` with only a microphone
(no monitor device) returns `Ok` and spawns a capture process — refuting
the claim that a configuration-validation error is returned and no
process is spawned. -/
theorem c3_counterexample :
    (start_session Recorder.new "/home/u/out.mp4" none "Both"
        (some "src.mic") none
        (StartEnv.mk (some "21") (some "22") (some "23")
          (SegEnv.mk "/tmp/seg0.mp4" (Except.ok 7)))).res = Except.ok () ∧
    (start_session Recorder.new "/home/u/out.mp4" none "Both"
        (some "src.mic") none
        (StartEnv.mk (some "21") (some "22") (some "23")
          (SegEnv.mk "/tmp/seg0.mp4" (Except.ok 7)))).state.process = some 7 :=
  ⟨rfl, rfl⟩

/-- C3 (amended): `start` in mode `Both` with only a microphone performs
no validation: the mixer-setup block is skipped entirely (zero
`load-module` calls), the config is saved as given, and the capture
process is spawned pointed at `RotonMixer.monitor`, so `start` returns
`Ok` whenever the spawn succeeds. -/
theorem c3_no_validation (r0 : Recorder) (fp : String) (geo : Option String)
    (m : String) (env : StartEnv) (pid : Nat)
    (hspawn : env.seg.spawnRes = Except.ok pid) :
    (start_session r0 fp geo "Both" (some m) none env).events.filter isLoadModule = [] ∧
    (start_session r0 fp geo "Both" (some m) none env).res = Except.ok () ∧
    (start_session r0 fp geo "Both" (some m) none env).state.process = some pid ∧
    (start_session r0 fp geo "Both" (some m) none env).state.config
      = some ⟨geo, "Both", some m, none, fp⟩ ∧
    Event.spawnProc (segArgs ⟨geo, "Both", some m, none, fp⟩ env.seg.tempFile)
      ∈ (start_session r0 fp geo "Both" (some m) none env).events ∧
    "RotonMixer.monitor" ∈ segArgs ⟨geo, "Both", some m, none, fp⟩ env.seg.tempFile := by
  rw [start_session_ok r0 fp geo "Both" (some m) none env pid hspawn]
  refine ⟨?_, rfl, rfl, rfl, by simp [mixEvents], ?_⟩
  · simp only [mixEvents, reduceIte, List.filter_append, filter_load_stop,
      unload_pulse_modules, filter_load_unloads, List.filter_cons,
      List.filter_nil, isLoadModule_spawn]
    rfl
  · simp [segArgs]

/-- Witness for C3 (amended) at a concrete input. -/
theorem c3_witness :
    (StartEnv.mk (some "21") (some "22") (some "23")
        (SegEnv.mk "/tmp/a.mp4" (Except.ok 7))).seg.spawnRes = Except.ok 7 ∧
    ((start_session Recorder.new "/home/u/out.mp4" none "Both" (some "src.mic") none
        (StartEnv.mk (some "21") (some "22") (some "23")
          (SegEnv.mk "/tmp/a.mp4" (Except.ok 7)))).events.filter isLoadModule = [] ∧
    (start_session Recorder.new "/home/u/out.mp4" none "Both" (some "src.mic") none
        (StartEnv.mk (some "21") (some "22") (some "23")
          (SegEnv.mk "/tmp/a.mp4" (Except.ok 7)))).res = Except.ok () ∧
    (start_session Recorder.new "/home/u/out.mp4" none "Both" (some "src.mic") none
        (StartEnv.mk (some "21") (some "22") (some "23")
          (SegEnv.mk "/tmp/a.mp4" (Except.ok 7)))).state.process = some 7 ∧
    (start_session Recorder.new "/home/u/out.mp4" none "Both" (some "src.mic") none
        (StartEnv.mk (some "21") (some "22") (some "23")
          (SegEnv.mk "/tmp/a.mp4" (Except.ok 7)))).state.config
      = some ⟨none, "Both", some "src.mic", none, "/home/u/out.mp4"⟩ ∧
    Event.spawnProc (segArgs ⟨none, "Both", some "src.mic", none, "/home/u/out.mp4"⟩
        (StartEnv.mk (some "21") (some "22") (some "23")
          (SegEnv.mk "/tmp/a.mp4" (Except.ok 7))).seg.tempFile)
      ∈ (start_session Recorder.new "/home/u/out.mp4" none "Both" (some "src.mic") none
          (StartEnv.mk (some "21") (some "22") (some "23")
            (SegEnv.mk "/tmp/a.mp4" (Except.ok 7)))).events ∧
    "RotonMixer.monitor" ∈ segArgs ⟨none, "Both", some "src.mic", none, "/home/u/out.mp4"⟩
        (StartEnv.mk (some "21") (some "22") (some "23")
          (SegEnv.mk "/tmp/a.mp4" (Except.ok 7))).seg.tempFile) :=
  ⟨rfl,
   c3_no_validation Recorder.new "/home/u/out.mp4" none "src.mic"
     (StartEnv.mk (some "21") (some "22") (some "23")
       (SegEnv.mk "/tmp/a.mp4" (Except.ok 7))) 7 rfl⟩

/-- C4 counterexample: calling `start` while a session is active (a
process handle, a loaded module, a recorded segment and a config all
present) returns `Ok` and replaces the segment list — refuting the claim
that it is rejected with an AlreadyRecording error leaving everything
unchanged. -/
theorem c4_counterexample :
    (start_session
        (Recorder.mk (some 5) ["9"] (some ⟨none, "Mute", none, none, "/home/u/old.mp4"⟩)
          ["/tmp/old.mp4"] false)
        "/home/u/new.mp4" none "Mute" none none
        (StartEnv.mk none none none (SegEnv.mk "/tmp/new.mp4" (Except.ok 6)))).res
      = Except.ok () ∧
    (start_session
        (Recorder.mk (some 5) ["9"] (some ⟨none, "Mute", none, none, "/home/u/old.mp4"⟩)
          ["/tmp/old.mp4"] false)
        "/home/u/new.mp4" none "Mute" none none
        (StartEnv.mk none none none (SegEnv.mk "/tmp/new.mp4" (Except.ok 6)))).state.temp_segments
      = ["/tmp/new.mp4"] :=
  ⟨rfl, rfl⟩

/-- C4 (amended): calling `start` while a session is active is not
rejected: the running process is killed, every loaded module is
unloaded, the previous segments are discarded, and a fresh session
starts (returning `Ok` when the spawn succeeds). -/
theorem c4_silent_restart (r0 : Recorder) (opid : Nat) (fp : String)
    (geo : Option String) (mode : String) (mic mon : Option String)
    (env : StartEnv) (pid : Nat)
    (hproc : r0.process = some opid) (hspawn : env.seg.spawnRes = Except.ok pid) :
    (start_session r0 fp geo mode mic mon env).res = Except.ok () ∧
    (start_session r0 fp geo mode mic mon env).state.temp_segments
      = [env.seg.tempFile] ∧
    Event.killProc opid ∈ (start_session r0 fp geo mode mic mon env).events ∧
    ∀ id ∈ r0.pulse_modules,
      Event.unloadModule id ∈ (start_session r0 fp geo mode mic mon env).events := by
  rw [start_session_ok r0 fp geo mode mic mon env pid hspawn]
  rw [stop_of_some r0 opid hproc]
  refine ⟨rfl, rfl, by simp, ?_⟩
  intro id hid
  simp only [unload_pulse_modules, List.mem_append, List.mem_map]
  exact Or.inl (Or.inl (Or.inr ⟨id, hid, rfl⟩))

/-- Witness for C4 (amended) at a concrete input. -/
theorem c4_witness :
    (Recorder.mk (some 5) ["9"] (some ⟨none, "Mute", none, none, "/home/u/old.mp4"⟩)
        ["/tmp/old.mp4"] false).process = some 5 ∧
    (StartEnv.mk none none none (SegEnv.mk "/tmp/new.mp4" (Except.ok 6))).seg.spawnRes
      = Except.ok 6 ∧
    ((start_session
        (Recorder.mk (some 5) ["9"] (some ⟨none, "Mute", none, none, "/home/u/old.mp4"⟩)
          ["/tmp/old.mp4"] false)
        "/home/u/new.mp4" none "Mute" none none
        (StartEnv.mk none none none (SegEnv.mk "/tmp/new.mp4" (Except.ok 6)))).res
      = Except.ok () ∧
    (start_session
        (Recorder.mk (some 5) ["9"] (some ⟨none, "Mute", none, none, "/home/u/old.mp4"⟩)
          ["/tmp/old.mp4"] false)
        "/home/u/new.mp4" none "Mute" none none
        (StartEnv.mk none none none (SegEnv.mk "/tmp/new.mp4" (Except.ok 6)))).state.temp_segments
      = [(StartEnv.mk none none none (SegEnv.mk "/tmp/new.mp4" (Except.ok 6))).seg.tempFile] ∧
    Event.killProc 5 ∈ (start_session
        (Recorder.mk (some 5) ["9"] (some ⟨none, "Mute", none, none, "/home/u/old.mp4"⟩)
          ["/tmp/old.mp4"] false)
        "/home/u/new.mp4" none "Mute" none none
        (StartEnv.mk none none none (SegEnv.mk "/tmp/new.mp4" (Except.ok 6)))).events ∧
    ∀ id ∈ (Recorder.mk (some 5) ["9"] (some ⟨none, "Mute", none, none, "/home/u/old.mp4"⟩)
        ["/tmp/old.mp4"] false).pulse_modules,
      Event.unloadModule id ∈ (start_session
        (Recorder.mk (some 5) ["9"] (some ⟨none, "Mute", none, none, "/home/u/old.mp4"⟩)
          ["/tmp/old.mp4"] false)
        "/home/u/new.mp4" none "Mute" none none
        (StartEnv.mk none none none (SegEnv.mk "/tmp/new.mp4" (Except.ok 6)))).events) :=
  ⟨rfl, rfl,
   c4_silent_restart
     (Recorder.mk (some 5) ["9"] (some ⟨none, "Mute", none, none, "/home/u/old.mp4"⟩)
       ["/tmp/old.mp4"] false)
     5 "/home/u/new.mp4" none "Mute" none none
     (StartEnv.mk none none none (SegEnv.mk "/tmp/new.mp4" (Except.ok 6)))
     6 rfl rfl⟩

/-- C5 counterexample: in mode `Both` the audio route is built (module
ids 10, 11, 12 recorded) and then the capture spawn fails; `start`
returns the error but the recorded module set is left as
`["10","11","12"]` (not emptied) and the config is retained — refuting
the claim that the route is torn down and the state left `Idle`. -/
theorem c5_counterexample :
    (start_session Recorder.new "/home/u/out.mp4" none "Both"
        (some "src.mic") (some "src.monitor")
        (StartEnv.mk (some "10") (some "11") (some "12")
          (SegEnv.mk "/tmp/seg0.mp4" (Except.error "boom")))).res
      = Except.error "Failed to start segment: boom" ∧
    (start_session Recorder.new "/home/u/out.mp4" none "Both"
        (some "src.mic") (some "src.monitor")
        (StartEnv.mk (some "10") (some "11") (some "12")
          (SegEnv.mk "/tmp/seg0.mp4" (Except.error "boom")))).state.pulse_modules
      = ["10", "11", "12"] ∧
    (start_session Recorder.new "/home/u/out.mp4" none "Both"
        (some "src.mic") (some "src.monitor")
        (StartEnv.mk (some "10") (some "11") (some "12")
          (SegEnv.mk "/tmp/seg0.mp4" (Except.error "boom")))).state.config
      = some ⟨none, "Both", some "src.mic", some "src.monitor", "/home/u/out.mp4"⟩ :=
  ⟨rfl, rfl, rfl⟩

/-- C5 (amended): when the capture spawn fails after the audio route was
built, `start` returns the spawn error but the loaded module ids stay
recorded (the route is not torn down inside `start`; teardown only
happens in a later start, finish, or drop) and the saved config is
retained. -/
theorem c5_route_left_loaded (r0 : Recorder) (fp : String) (geo : Option String)
    (m mon : String) (env : StartEnv) (msg s1 s2 s3 : String)
    (hsink : env.sinkRes = some s1) (h1 : env.loop1Res = some s2)
    (h2 : env.loop2Res = some s3) (hspawn : env.seg.spawnRes = Except.error msg) :
    (start_session r0 fp geo "Both" (some m) (some mon) env).res
      = Except.error ("Failed to start segment: " ++ msg) ∧
    (start_session r0 fp geo "Both" (some m) (some mon) env).state.pulse_modules
      = [s1, s2, s3] ∧
    (start_session r0 fp geo "Both" (some m) (some mon) env).state.config
      = some ⟨geo, "Both", some m, some mon, fp⟩ ∧
    (start_session r0 fp geo "Both" (some m) (some mon) env).state.process = none := by
  rw [start_session_spawn_err r0 fp geo "Both" (some m) (some mon) env msg hspawn]
  refine ⟨rfl, ?_, rfl, rfl⟩
  simp [mixModules, hsink, h1, h2]

/-- Witness for C5 (amended) at a concrete input. -/
theorem c5_witness :
    (StartEnv.mk (some "10") (some "11") (some "12")
        (SegEnv.mk "/tmp/b.mp4" (Except.error "boom"))).sinkRes = some "10" ∧
    (StartEnv.mk (some "10") (some "11") (some "12")
        (SegEnv.mk "/tmp/b.mp4" (Except.error "boom"))).loop1Res = some "11" ∧
    (StartEnv.mk (some "10") (some "11") (some "12")
        (SegEnv.mk "/tmp/b.mp4" (Except.error "boom"))).loop2Res = some "12" ∧
    (StartEnv.mk (some "10") (some "11") (some "12")
        (SegEnv.mk "/tmp/b.mp4" (Except.error "boom"))).seg.spawnRes
      = Except.error "boom" ∧
    ((start_session Recorder.new "/home/u/out.mp4" none "Both"
        (some "src.mic") (some "src.monitor")
        (StartEnv.mk (some "10") (some "11") (some "12")
          (SegEnv.mk "/tmp/b.mp4" (Except.error "boom")))).res
      = Except.error ("Failed to start segment: " ++ "boom") ∧
    (start_session Recorder.new "/home/u/out.mp4" none "Both"
        (some "src.mic") (some "src.monitor")
        (StartEnv.mk (some "10") (some "11") (some "12")
          (SegEnv.mk "/tmp/b.mp4" (Except.error "boom")))).state.pulse_modules
      = ["10", "11", "12"] ∧
    (start_session Recorder.new "/home/u/out.mp4" none "Both"
        (some "src.mic") (some "src.monitor")
        (StartEnv.mk (some "10") (some "11") (some "12")
          (SegEnv.mk "/tmp/b.mp4" (Except.error "boom")))).state.config
      = some ⟨none, "Both", some "src.mic", some "src.monitor", "/home/u/out.mp4"⟩ ∧
    (start_session Recorder.new "/home/u/out.mp4" none "Both"
        (some "src.mic") (some "src.monitor")
        (StartEnv.mk (some "10") (some "11") (some "12")
          (SegEnv.mk "/tmp/b.mp4" (Except.error "boom")))).state.process = none) :=
  ⟨rfl, rfl, rfl, rfl,
   c5_route_left_loaded Recorder.new "/home/u/out.mp4" none "src.mic" "src.monitor"
     (StartEnv.mk (some "10") (some "11") (some "12")
       (SegEnv.mk "/tmp/b.mp4" (Except.error "boom")))
     "boom" "10" "11" "12" rfl rfl rfl rfl⟩

/-- C6 counterexample: a finish whose merge step fails (ffmpeg exits
non-zero) returns the error but retains the stored configuration and
the segment list — refuting the claim that the session transitions to
`Idle` with the configuration discarded. -/
theorem c6_counterexample :
    (finish_session
        (Recorder.mk (some 5) ["9"] (some ⟨none, "Mute", none, none, "/home/u/out.mp4"⟩)
          ["/tmp/a.mp4", "/tmp/b.mp4"] false)
        (FinishEnv.mk "/tmp" RenameRes.ok none none none (Except.ok false))).res
      = Except.error "FFmpeg concat failed" ∧
    (finish_session
        (Recorder.mk (some 5) ["9"] (some ⟨none, "Mute", none, none, "/home/u/out.mp4"⟩)
          ["/tmp/a.mp4", "/tmp/b.mp4"] false)
        (FinishEnv.mk "/tmp" RenameRes.ok none none none (Except.ok false))).state.config
      = some ⟨none, "Mute", none, none, "/home/u/out.mp4"⟩ ∧
    (finish_session
        (Recorder.mk (some 5) ["9"] (some ⟨none, "Mute", none, none, "/home/u/out.mp4"⟩)
          ["/tmp/a.mp4", "/tmp/b.mp4"] false)
        (FinishEnv.mk "/tmp" RenameRes.ok none none none (Except.ok false))).state.temp_segments
      = ["/tmp/a.mp4", "/tmp/b.mp4"] :=
  ⟨rfl, rfl, rfl⟩

/-- C6 (amended): when the merge step of finish fails, the error is
returned and the capture process is stopped and the modules unloaded,
but the session does not reset to the initial shape: the stored
configuration and the segment list are retained. -/
theorem c6_state_retained (r : Recorder) (env : FinishEnv) (s0 s1 : String)
    (rest : List String) (cfg : RecordingConfig)
    (hs : r.temp_segments = s0 :: s1 :: rest) (hc : r.config = some cfg)
    (hw : env.writeRes = none) (hf : env.ffmpegRes = Except.ok false) :
    (finish_session r env).res = Except.error "FFmpeg concat failed" ∧
    (finish_session r env).state.config = some cfg ∧
    (finish_session r env).state.temp_segments = s0 :: s1 :: rest ∧
    (finish_session r env).state.process = none ∧
    (finish_session r env).state.pulse_modules = [] := by
  rw [finish_multi_ffmpeg_fail r env s0 s1 rest cfg hs hc hw hf]
  exact ⟨rfl, hc, hs, rfl, rfl⟩

/-- Witness for C6 (amended) at a concrete input. -/
theorem c6_witness :
    (Recorder.mk (some 5) ["9"] (some ⟨none, "Mute", none, none, "/home/u/out.mp4"⟩)
        ["/tmp/a.mp4", "/tmp/b.mp4"] false).temp_segments
      = "/tmp/a.mp4" :: "/tmp/b.mp4" :: [] ∧
    (Recorder.mk (some 5) ["9"] (some ⟨none, "Mute", none, none, "/home/u/out.mp4"⟩)
        ["/tmp/a.mp4", "/tmp/b.mp4"] false).config
      = some ⟨none, "Mute", none, none, "/home/u/out.mp4"⟩ ∧
    (FinishEnv.mk "/tmp" RenameRes.ok none none none (Except.ok false)).writeRes = none ∧
    (FinishEnv.mk "/tmp" RenameRes.ok none none none (Except.ok false)).ffmpegRes
      = Except.ok false ∧
    ((finish_session
        (Recorder.mk (some 5) ["9"] (some ⟨none, "Mute", none, none, "/home/u/out.mp4"⟩)
          ["/tmp/a.mp4", "/tmp/b.mp4"] false)
        (FinishEnv.mk "/tmp" RenameRes.ok none none none (Except.ok false))).res
      = Except.error "FFmpeg concat failed" ∧
    (finish_session
        (Recorder.mk (some 5) ["9"] (some ⟨none, "Mute", none, none, "/home/u/out.mp4"⟩)
          ["/tmp/a.mp4", "/tmp/b.mp4"] false)
        (FinishEnv.mk "/tmp" RenameRes.ok none none none (Except.ok false))).state.config
      = some ⟨none, "Mute", none, none, "/home/u/out.mp4"⟩ ∧
    (finish_session
        (Recorder.mk (some 5) ["9"] (some ⟨none, "Mute", none, none, "/home/u/out.mp4"⟩)
          ["/tmp/a.mp4", "/tmp/b.mp4"] false)
        (FinishEnv.mk "/tmp" RenameRes.ok none none none (Except.ok false))).state.temp_segments
      = "/tmp/a.mp4" :: "/tmp/b.mp4" :: [] ∧
    (finish_session
        (Recorder.mk (some 5) ["9"] (some ⟨none, "Mute", none, none, "/home/u/out.mp4"⟩)
          ["/tmp/a.mp4", "/tmp/b.mp4"] false)
        (FinishEnv.mk "/tmp" RenameRes.ok none none none (Except.ok false))).state.process
      = none ∧
    (finish_session
        (Recorder.mk (some 5) ["9"] (some ⟨none, "Mute", none, none, "/home/u/out.mp4"⟩)
          ["/tmp/a.mp4", "/tmp/b.mp4"] false)
        (FinishEnv.mk "/tmp" RenameRes.ok none none none (Except.ok false))).state.pulse_modules
      = []) :=
  ⟨rfl, rfl, rfl, rfl,
   c6_state_retained
     (Recorder.mk (some 5) ["9"] (some ⟨none, "Mute", none, none, "/home/u/out.mp4"⟩)
       ["/tmp/a.mp4", "/tmp/b.mp4"] false)
     (FinishEnv.mk "/tmp" RenameRes.ok none none none (Except.ok false))
     "/tmp/a.mp4" "/tmp/b.mp4" [] ⟨none, "Mute", none, none, "/home/u/out.mp4"⟩
     rfl rfl rfl rfl⟩

lemma fsRemove_not_mem_pre (r : Recorder) (x : String) :
    Event.fsRemove x ∉ preEvents r := by
  cases r with
  | mk p pm c ts ip =>
    cases p <;>
      simp [preEvents, stop_current_process, List.mem_append, List.mem_map]

/-- C7: For every finish with at least two recorded segments, an ordered
manifest referencing every segment is written and ffmpeg is invoked on
it; on non-zero ffmpeg exit the finish returns the concat error and
deletes no segment file; on success the manifest and every segment file
are deleted and the segment list is cleared. -/
theorem c7_multi_segment_finalize (r : Recorder) (env : FinishEnv) (s0 s1 : String)
    (rest : List String) (cfg : RecordingConfig)
    (hs : r.temp_segments = s0 :: s1 :: rest) (hc : r.config = some cfg)
    (hw : env.writeRes = none) :
    Event.fsWrite (listPath env) (manifest (s0 :: s1 :: rest))
      ∈ (finish_session r env).events ∧
    Event.runFfmpeg (listPath env) cfg.final_path ∈ (finish_session r env).events ∧
    (env.ffmpegRes = Except.ok false →
      (finish_session r env).res = Except.error "FFmpeg concat failed" ∧
      (finish_session r env).state.temp_segments = s0 :: s1 :: rest ∧
      ∀ x ∈ s0 :: s1 :: rest, Event.fsRemove x ∉ (finish_session r env).events) ∧
    (env.ffmpegRes = Except.ok true →
      (finish_session r env).res = Except.ok () ∧
      (finish_session r env).state.temp_segments = [] ∧
      (finish_session r env).state.config = none ∧
      Event.fsRemove (listPath env) ∈ (finish_session r env).events ∧
      ∀ x ∈ s0 :: s1 :: rest, Event.fsRemove x ∈ (finish_session r env).events) := by
  rcases hf : env.ffmpegRes with msg | b
  · rw [finish_multi_ffmpeg_spawn_err r env s0 s1 msg rest cfg hs hc hw hf]
    refine ⟨by simp, by simp, ?_, ?_⟩
    · intro hcontra
      exact Except.noConfusion hcontra
    · intro hcontra
      exact Except.noConfusion hcontra
  · cases b
    · rw [finish_multi_ffmpeg_fail r env s0 s1 rest cfg hs hc hw hf]
      refine ⟨by simp, by simp, ?_, ?_⟩
      · intro _
        refine ⟨rfl, hs, ?_⟩
        intro x hx
        simp [List.mem_append, fsRemove_not_mem_pre r x]
      · intro hcontra
        simp at hcontra
    · rw [finish_multi_ffmpeg_ok r env s0 s1 rest cfg hs hc hw hf]
      refine ⟨by simp, by simp, ?_, ?_⟩
      · intro hcontra
        simp at hcontra
      · intro _
        refine ⟨rfl, rfl, rfl, by simp, ?_⟩
        intro x hx
        simp only [List.mem_append, List.mem_map]
        exact Or.inr ⟨x, hx, rfl⟩

/-- Witness for C7 at a concrete input (two segments, merge succeeds). -/
theorem c7_witness :
    (Recorder.mk (some 5) [] (some ⟨none, "Mute", none, none, "/home/u/out.mp4"⟩)
        ["/tmp/a.mp4", "/tmp/b.mp4"] false).temp_segments
      = "/tmp/a.mp4" :: "/tmp/b.mp4" :: [] ∧
    (Recorder.mk (some 5) [] (some ⟨none, "Mute", none, none, "/home/u/out.mp4"⟩)
        ["/tmp/a.mp4", "/tmp/b.mp4"] false).config
      = some ⟨none, "Mute", none, none, "/home/u/out.mp4"⟩ ∧
    (FinishEnv.mk "/tmp" RenameRes.ok none none none (Except.ok true)).writeRes = none ∧
    (Event.fsWrite (listPath (FinishEnv.mk "/tmp" RenameRes.ok none none none (Except.ok true)))
        (manifest ("/tmp/a.mp4" :: "/tmp/b.mp4" :: []))
      ∈ (finish_session
          (Recorder.mk (some 5) [] (some ⟨none, "Mute", none, none, "/home/u/out.mp4"⟩)
            ["/tmp/a.mp4", "/tmp/b.mp4"] false)
          (FinishEnv.mk "/tmp" RenameRes.ok none none none (Except.ok true))).events ∧
    Event.runFfmpeg (listPath (FinishEnv.mk "/tmp" RenameRes.ok none none none (Except.ok true)))
        (RecordingConfig.mk none "Mute" none none "/home/u/out.mp4").final_path
      ∈ (finish_session
          (Recorder.mk (some 5) [] (some ⟨none, "Mute", none, none, "/home/u/out.mp4"⟩)
            ["/tmp/a.mp4", "/tmp/b.mp4"] false)
          (FinishEnv.mk "/tmp" RenameRes.ok none none none (Except.ok true))).events ∧
    ((FinishEnv.mk "/tmp" RenameRes.ok none none none (Except.ok true)).ffmpegRes
        = Except.ok false →
      (finish_session
          (Recorder.mk (some 5) [] (some ⟨none, "Mute", none, none, "/home/u/out.mp4"⟩)
            ["/tmp/a.mp4", "/tmp/b.mp4"] false)
          (FinishEnv.mk "/tmp" RenameRes.ok none none none (Except.ok true))).res
        = Except.error "FFmpeg concat failed" ∧
      (finish_session
          (Recorder.mk (some 5) [] (some ⟨none, "Mute", none, none, "/home/u/out.mp4"⟩)
            ["/tmp/a.mp4", "/tmp/b.mp4"] false)
          (FinishEnv.mk "/tmp" RenameRes.ok none none none (Except.ok true))).state.temp_segments
        = "/tmp/a.mp4" :: "/tmp/b.mp4" :: [] ∧
      ∀ x ∈ "/tmp/a.mp4" :: "/tmp/b.mp4" :: ([] : List String),
        Event.fsRemove x ∉ (finish_session
          (Recorder.mk (some 5) [] (some ⟨none, "Mute", none, none, "/home/u/out.mp4"⟩)
            ["/tmp/a.mp4", "/tmp/b.mp4"] false)
          (FinishEnv.mk "/tmp" RenameRes.ok none none none (Except.ok true))).events) ∧
    ((FinishEnv.mk "/tmp" RenameRes.ok none none none (Except.ok true)).ffmpegRes
        = Except.ok true →
      (finish_session
          (Recorder.mk (some 5) [] (some ⟨none, "Mute", none, none, "/home/u/out.mp4"⟩)
            ["/tmp/a.mp4", "/tmp/b.mp4"] false)
          (FinishEnv.mk "/tmp" RenameRes.ok none none none (Except.ok true))).res
        = Except.ok () ∧
      (finish_session
          (Recorder.mk (some 5) [] (some ⟨none, "Mute", none, none, "/home/u/out.mp4"⟩)
            ["/tmp/a.mp4", "/tmp/b.mp4"] false)
          (FinishEnv.mk "/tmp" RenameRes.ok none none none (Except.ok true))).state.temp_segments
        = [] ∧
      (finish_session
          (Recorder.mk (some 5) [] (some ⟨none, "Mute", none, none, "/home/u/out.mp4"⟩)
            ["/tmp/a.mp4", "/tmp/b.mp4"] false)
          (FinishEnv.mk "/tmp" RenameRes.ok none none none (Except.ok true))).state.config
        = none ∧
      Event.fsRemove (listPath (FinishEnv.mk "/tmp" RenameRes.ok none none none (Except.ok true)))
        ∈ (finish_session
          (Recorder.mk (some 5) [] (some ⟨none, "Mute", none, none, "/home/u/out.mp4"⟩)
            ["/tmp/a.mp4", "/tmp/b.mp4"] false)
          (FinishEnv.mk "/tmp" RenameRes.ok none none none (Except.ok true))).events ∧
      ∀ x ∈ "/tmp/a.mp4" :: "/tmp/b.mp4" :: ([] : List String),
        Event.fsRemove x ∈ (finish_session
          (Recorder.mk (some 5) [] (some ⟨none, "Mute", none, none, "/home/u/out.mp4"⟩)
            ["/tmp/a.mp4", "/tmp/b.mp4"] false)
          (FinishEnv.mk "/tmp" RenameRes.ok none none none (Except.ok true))).events)) :=
  ⟨rfl, rfl, rfl,
   c7_multi_segment_finalize
     (Recorder.mk (some 5) [] (some ⟨none, "Mute", none, none, "/home/u/out.mp4"⟩)
       ["/tmp/a.mp4", "/tmp/b.mp4"] false)
     (FinishEnv.mk "/tmp" RenameRes.ok none none none (Except.ok true))
     "/tmp/a.mp4" "/tmp/b.mp4" [] ⟨none, "Mute", none, none, "/home/u/out.mp4"⟩
     rfl rfl rfl⟩

lemma fsCopy_not_mem_pre (r : Recorder) (x y : String) :
    Event.fsCopy x y ∉ preEvents r := by
  cases r with
  | mk p pm c ts ip =>
    cases p <;>
      simp [preEvents, stop_current_process, List.mem_append, List.mem_map]

/-- C8: For every finish with exactly one recorded segment, a rename to
the final path is attempted first; a copy fallback happens iff the
rename failed with EXDEV, in which case (when copy and delete succeed)
the source is deleted and finish succeeds; any other rename failure is
returned as a hard error with no copy fallback. -/
theorem c8_single_segment_rename (r : Recorder) (env : FinishEnv) (s : String)
    (cfg : RecordingConfig)
    (hs : r.temp_segments = [s]) (hc : r.config = some cfg) :
    Event.fsRename s cfg.final_path ∈ (finish_session r env).events ∧
    (Event.fsCopy s cfg.final_path ∈ (finish_session r env).events
       ↔ env.renameRes = RenameRes.errExdev) ∧
    (∀ msg, env.renameRes = RenameRes.errOther msg →
      (finish_session r env).res = Except.error msg) ∧
    (env.renameRes = RenameRes.errExdev → env.copyRes = none →
      env.removeSrcRes = none →
      (finish_session r env).res = Except.ok () ∧
      Event.fsRemove s ∈ (finish_session r env).events) ∧
    (env.renameRes = RenameRes.ok → (finish_session r env).res = Except.ok ()) := by
  rcases hre : env.renameRes with _ | _ | msg
  · rw [finish_single_rename_ok r env s cfg hs hc hre]
    refine ⟨by simp, ?_, ?_, ?_, fun _ => rfl⟩
    · simp [List.mem_append, fsCopy_not_mem_pre r s cfg.final_path]
    · intro msg h
      exact RenameRes.noConfusion h
    · intro h
      exact RenameRes.noConfusion h
  · rcases hcp : env.copyRes with _ | msg2
    · rcases hrm : env.removeSrcRes with _ | msg3
      · rw [finish_single_exdev_ok r env s cfg hs hc hre hcp hrm]
        refine ⟨by simp, by simp, ?_, fun _ _ _ => ⟨rfl, by simp⟩, ?_⟩
        · intro msg h
          exact RenameRes.noConfusion h
        · intro h
          exact RenameRes.noConfusion h
      · rw [finish_single_exdev_remove_err r env s msg3 cfg hs hc hre hcp hrm]
        refine ⟨by simp, by simp, ?_, ?_, ?_⟩
        · intro msg h
          exact RenameRes.noConfusion h
        · intro _ _ h
          exact Option.noConfusion h
        · intro h
          exact RenameRes.noConfusion h
    · rw [finish_single_exdev_copy_err r env s msg2 cfg hs hc hre hcp]
      refine ⟨by simp, by simp, ?_, ?_, ?_⟩
      · intro msg h
        exact RenameRes.noConfusion h
      · intro _ h
        exact Option.noConfusion h
      · intro h
        exact RenameRes.noConfusion h
  · rw [finish_single_rename_hard_err r env s msg cfg hs hc hre]
    refine ⟨by simp, ?_, ?_, ?_, ?_⟩
    · simp [List.mem_append, fsCopy_not_mem_pre r s cfg.final_path]
    · intro msg2 h
      injection h with h1
      subst h1
      rfl
    · intro h
      exact RenameRes.noConfusion h
    · intro h
      exact RenameRes.noConfusion h

/-- Witness for C8 at a concrete input (one segment, EXDEV fallback). -/
theorem c8_witness :
    (Recorder.mk (some 5) [] (some ⟨none, "Mute", none, none, "/home/u/out.mp4"⟩)
        ["/tmp/a.mp4"] false).temp_segments = ["/tmp/a.mp4"] ∧
    (Recorder.mk (some 5) [] (some ⟨none, "Mute", none, none, "/home/u/out.mp4"⟩)
        ["/tmp/a.mp4"] false).config
      = some ⟨none, "Mute", none, none, "/home/u/out.mp4"⟩ ∧
    (Event.fsRename "/tmp/a.mp4"
        (RecordingConfig.mk none "Mute" none none "/home/u/out.mp4").final_path
      ∈ (finish_session
          (Recorder.mk (some 5) [] (some ⟨none, "Mute", none, none, "/home/u/out.mp4"⟩)
            ["/tmp/a.mp4"] false)
          (FinishEnv.mk "/tmp" RenameRes.errExdev none none none (Except.ok true))).events ∧
    (Event.fsCopy "/tmp/a.mp4"
        (RecordingConfig.mk none "Mute" none none "/home/u/out.mp4").final_path
      ∈ (finish_session
          (Recorder.mk (some 5) [] (some ⟨none, "Mute", none, none, "/home/u/out.mp4"⟩)
            ["/tmp/a.mp4"] false)
          (FinishEnv.mk "/tmp" RenameRes.errExdev none none none (Except.ok true))).events
       ↔ (FinishEnv.mk "/tmp" RenameRes.errExdev none none none (Except.ok true)).renameRes
          = RenameRes.errExdev) ∧
    (∀ msg, (FinishEnv.mk "/tmp" RenameRes.errExdev none none none (Except.ok true)).renameRes
        = RenameRes.errOther msg →
      (finish_session
          (Recorder.mk (some 5) [] (some ⟨none, "Mute", none, none, "/home/u/out.mp4"⟩)
            ["/tmp/a.mp4"] false)
          (FinishEnv.mk "/tmp" RenameRes.errExdev none none none (Except.ok true))).res
        = Except.error msg) ∧
    ((FinishEnv.mk "/tmp" RenameRes.errExdev none none none (Except.ok true)).renameRes
        = RenameRes.errExdev →
      (FinishEnv.mk "/tmp" RenameRes.errExdev none none none (Except.ok true)).copyRes = none →
      (FinishEnv.mk "/tmp" RenameRes.errExdev none none none (Except.ok true)).removeSrcRes = none →
      (finish_session
          (Recorder.mk (some 5) [] (some ⟨none, "Mute", none, none, "/home/u/out.mp4"⟩)
            ["/tmp/a.mp4"] false)
          (FinishEnv.mk "/tmp" RenameRes.errExdev none none none (Except.ok true))).res
        = Except.ok () ∧
      Event.fsRemove "/tmp/a.mp4"
        ∈ (finish_session
            (Recorder.mk (some 5) [] (some ⟨none, "Mute", none, none, "/home/u/out.mp4"⟩)
              ["/tmp/a.mp4"] false)
            (FinishEnv.mk "/tmp" RenameRes.errExdev none none none (Except.ok true))).events) ∧
    ((FinishEnv.mk "/tmp" RenameRes.errExdev none none none (Except.ok true)).renameRes
        = RenameRes.ok →
      (finish_session
          (Recorder.mk (some 5) [] (some ⟨none, "Mute", none, none, "/home/u/out.mp4"⟩)
            ["/tmp/a.mp4"] false)
          (FinishEnv.mk "/tmp" RenameRes.errExdev none none none (Except.ok true))).res
        = Except.ok ())) :=
  ⟨rfl, rfl,
   c8_single_segment_rename
     (Recorder.mk (some 5) [] (some ⟨none, "Mute", none, none, "/home/u/out.mp4"⟩)
       ["/tmp/a.mp4"] false)
     (FinishEnv.mk "/tmp" RenameRes.errExdev none none none (Except.ok true))
     "/tmp/a.mp4" ⟨none, "Mute", none, none, "/home/u/out.mp4"⟩ rfl rfl⟩

/-- C9: Unloading with an already-empty module list issues no
audio-server calls and leaves the state (hence the empty id set)
unchanged; and for every state, a second consecutive `pause` changes
nothing: state identical, no events, `Ok` result. -/
theorem c9_idempotence (r : Recorder) :
    (r.pulse_modules = [] → unload_pulse_modules r = (r, [])) ∧
    (pause_session (pause_session r).state).state = (pause_session r).state ∧
    (pause_session (pause_session r).state).events = [] ∧
    (pause_session (pause_session r).state).res = Except.ok () := by
  have hp : (pause_session r).state.is_paused = true := by
    cases r with
    | mk p pm c ts ip =>
      cases ip <;> cases p <;> simp [pause_session, stop_current_process]
  have key : ∀ x : Recorder, x.is_paused = true →
      pause_session x = ⟨x, Except.ok (), []⟩ := by
    intro x hx
    simp [pause_session, hx]
  refine ⟨?_, ?_, ?_, ?_⟩
  · intro h
    cases r with
    | mk p pm c ts ip =>
      simp only [Recorder.pulse_modules] at h
      subst h
      simp [unload_pulse_modules]
  · rw [key _ hp]
  · rw [key _ hp]
  · rw [key _ hp]

/-- Witness for C9 at the initial state. -/
theorem c9_witness :
    unload_pulse_modules Recorder.new = (Recorder.new, []) ∧
    (pause_session (pause_session Recorder.new).state).state
      = (pause_session Recorder.new).state ∧
    (pause_session (pause_session Recorder.new).state).events = [] ∧
    (pause_session (pause_session Recorder.new).state).res = Except.ok () :=
  ⟨(c9_idempotence Recorder.new).1 rfl,
   (c9_idempotence Recorder.new).2.1,
   (c9_idempotence Recorder.new).2.2.1,
   (c9_idempotence Recorder.new).2.2.2⟩

/-- The invariant behind the `Config lost` branch of `finish_session`
(lines 192-196): whenever segments are recorded, a config is present. -/
def configPresent (r : Recorder) : Bool :=
  r.temp_segments.isEmpty || r.config.isSome

lemma start_inv (r0 : Recorder) (fp : String) (geo : Option String) (mode : String)
    (mic mon : Option String) (env : StartEnv) :
    configPresent (start_session r0 fp geo mode mic mon env).state = true := by
  rw [start_session_eq]
  rcases he : env.seg.spawnRes with m | q <;>
    simp [start_segment, he, configPresent]

lemma pause_inv (r : Recorder) (h : configPresent r = true) :
    configPresent (pause_session r).state = true := by
  cases r with
  | mk p pm c ts ip =>
    cases ip <;> cases p <;>
      simpa [pause_session, stop_current_process, configPresent] using h

lemma resume_inv (r : Recorder) (e : SegEnv) (h : configPresent r = true) :
    configPresent (resume_session r e).state = true := by
  cases r with
  | mk p pm c ts ip =>
    cases ip
    · simpa [resume_session] using h
    · cases c
      · simpa [resume_session, start_segment] using h
      · rcases he : e.spawnRes with m | q <;>
          simp [resume_session, start_segment, he, configPresent]

lemma finish_inv (r : Recorder) (env : FinishEnv) (h : configPresent r = true) :
    configPresent (finish_session r env).state = true := by
  rcases hts : r.temp_segments with _ | ⟨s0, rest⟩
  · rw [finish_empty r env hts]
    simp [configPresent, hts]
  · rcases hcf : r.config with _ | cfg
    · simp [configPresent, hts, hcf] at h
    · rcases rest with _ | ⟨s1, rest2⟩
      · rcases hre : env.renameRes with _ | _ | msg
        · rw [finish_single_rename_ok r env s0 cfg hts hcf hre]
          simp [configPresent]
        · rcases hcp : env.copyRes with _ | m2
          · rcases hrm : env.removeSrcRes with _ | m3
            · rw [finish_single_exdev_ok r env s0 cfg hts hcf hre hcp hrm]
              simp [configPresent]
            · rw [finish_single_exdev_remove_err r env s0 m3 cfg hts hcf hre hcp hrm]
              simp [configPresent, hcf]
          · rw [finish_single_exdev_copy_err r env s0 m2 cfg hts hcf hre hcp]
            simp [configPresent, hcf]
        · rw [finish_single_rename_hard_err r env s0 msg cfg hts hcf hre]
          simp [configPresent, hcf]
      · rcases hw : env.writeRes with _ | mw
        · rcases hf : env.ffmpegRes with mf | b
          · rw [finish_multi_ffmpeg_spawn_err r env s0 s1 mf rest2 cfg hts hcf hw hf]
            simp [configPresent, hcf]
          · cases b
            · rw [finish_multi_ffmpeg_fail r env s0 s1 rest2 cfg hts hcf hw hf]
              simp [configPresent, hcf]
            · rw [finish_multi_ffmpeg_ok r env s0 s1 rest2 cfg hts hcf hw hf]
              simp [configPresent]
        · rw [finish_multi_write_err r env s0 s1 mw rest2 cfg hts hcf hw]
          simp [configPresent, hcf]

lemma step_inv (r : Recorder) (op : Op) (h : configPresent r = true) :
    configPresent (step r op).state = true := by
  cases op with
  | start fp geo mode mic mon env => exact start_inv r fp geo mode mic mon env
  | pause => exact pause_inv r h
  | resume e => exact resume_inv r e h
  | finish env => exact finish_inv r env h

lemma foldl_inv (ops : List Op) : ∀ r : Recorder, configPresent r = true →
    configPresent (ops.foldl (fun r op => (step r op).state) r) = true := by
  induction ops with
  | nil => intro r h; simpa using h
  | cons op l ih =>
    intro r h
    rw [List.foldl_cons]
    exact ih _ (step_inv r op h)

lemma run_inv (ops : List Op) : configPresent (run ops) = true :=
  foldl_inv ops Recorder.new rfl

lemma finish_no_configlost (r : Recorder) (env : FinishEnv)
    (h : configPresent r = true)
    (h1 : env.renameRes ≠ RenameRes.errOther "Config lost")
    (h2 : env.copyRes ≠ some "Config lost")
    (h3 : env.removeSrcRes ≠ some "Config lost")
    (h4 : env.writeRes ≠ some "Config lost")
    (h5 : env.ffmpegRes ≠ Except.error "Config lost") :
    (finish_session r env).res ≠ Except.error "Config lost" := by
  rcases hts : r.temp_segments with _ | ⟨s0, rest⟩
  · rw [finish_empty r env hts]
    intro hcontra
    injection hcontra with hx
    exact absurd hx (by decide)
  · rcases hcf : r.config with _ | cfg
    · simp [configPresent, hts, hcf] at h
    · rcases rest with _ | ⟨s1, rest2⟩
      · rcases hre : env.renameRes with _ | _ | msg
        · rw [finish_single_rename_ok r env s0 cfg hts hcf hre]
          exact fun hcontra => Except.noConfusion hcontra
        · rcases hcp : env.copyRes with _ | m2
          · rcases hrm : env.removeSrcRes with _ | m3
            · rw [finish_single_exdev_ok r env s0 cfg hts hcf hre hcp hrm]
              exact fun hcontra => Except.noConfusion hcontra
            · rw [finish_single_exdev_remove_err r env s0 m3 cfg hts hcf hre hcp hrm]
              intro hcontra
              injection hcontra with hx
              exact h3 (hrm.trans (by rw [hx]))
          · rw [finish_single_exdev_copy_err r env s0 m2 cfg hts hcf hre hcp]
            intro hcontra
            injection hcontra with hx
            exact h2 (hcp.trans (by rw [hx]))
        · rw [finish_single_rename_hard_err r env s0 msg cfg hts hcf hre]
          intro hcontra
          injection hcontra with hx
          exact h1 (hre.trans (by rw [hx]))
      · rcases hw : env.writeRes with _ | mw
        · rcases hf : env.ffmpegRes with mf | b
          · rw [finish_multi_ffmpeg_spawn_err r env s0 s1 mf rest2 cfg hts hcf hw hf]
            intro hcontra
            injection hcontra with hx
            exact h5 (hf.trans (by rw [hx]))
          · cases b
            · rw [finish_multi_ffmpeg_fail r env s0 s1 rest2 cfg hts hcf hw hf]
              intro hcontra
              injection hcontra with hx
              exact absurd hx (by decide)
            · rw [finish_multi_ffmpeg_ok r env s0 s1 rest2 cfg hts hcf hw hf]
              exact fun hcontra => Except.noConfusion hcontra
        · rw [finish_multi_write_err r env s0 s1 mw rest2 cfg hts hcf hw]
          intro hcontra
          injection hcontra with hx
          exact h4 (hw.trans (by rw [hx]))

/-- C10: every public operation preserves the invariant that a non-empty
segment list implies a stored config; the invariant holds in every state
reachable from the initial one; consequently the `Config lost` branch of
finish is unreachable from the initial state (its message can only be
returned if some external-error string happens to equal it). -/
theorem c10_config_invariant :
    (∀ (r : Recorder) (op : Op),
      configPresent r = true → configPresent (step r op).state = true) ∧
    (∀ ops : List Op, configPresent (run ops) = true) ∧
    (∀ (ops : List Op) (env : FinishEnv),
      env.renameRes ≠ RenameRes.errOther "Config lost" →
      env.copyRes ≠ some "Config lost" →
      env.removeSrcRes ≠ some "Config lost" →
      env.writeRes ≠ some "Config lost" →
      env.ffmpegRes ≠ Except.error "Config lost" →
      (finish_session (run ops) env).res ≠ Except.error "Config lost") :=
  ⟨step_inv, run_inv,
   fun ops env h1 h2 h3 h4 h5 =>
     finish_no_configlost (run ops) env (run_inv ops) h1 h2 h3 h4 h5⟩

/-- Witness for C10 at concrete inputs. -/
theorem c10_witness :
    configPresent (step Recorder.new Op.pause).state = true ∧
    configPresent (run []) = true ∧
    (finish_session (run [])
        (FinishEnv.mk "/tmp" RenameRes.ok none none none (Except.ok true))).res
      ≠ Except.error "Config lost" :=
  ⟨c10_config_invariant.1 Recorder.new Op.pause rfl,
   c10_config_invariant.2.1 [],
   c10_config_invariant.2.2 []
     (FinishEnv.mk "/tmp" RenameRes.ok none none none (Except.ok true))
     (by decide) (by decide) (by decide) (by decide)
     (fun hcontra => Except.noConfusion hcontra)⟩
